import Mathlib

/-!
Shallow embedding of the Losant MQTT device client
(`losantmqtt/device.py`) and proofs about the behaviours its
specification claims.  Pure computations (topic derivation, JSON
serialization, the extended JSON decoder) are translated directly from
the source; the external collaborators (the paho MQTT client, the JSON
standard library, the wall clock) are modelled by explicit parameters
and small faithful models, each documented at its definition.
-/

namespace Losant

/-- JSON-serializable Python values as they are passed to `json.dumps`
in `send_state`: `None`, booleans, integers, strings, lists and dicts
(dict modelled as an association list in insertion order).  Floats are
not modelled (no claim involves them). -/
inductive Json where
  | null : Json
  | bool : Bool → Json
  | num : Int → Json
  | str : String → Json
  | arr : List Json → Json
  | obj : List (String × Json) → Json

/-- Four lowercase hex digits, as in Python's `\uXXXX` escapes. -/
def hex4 (n : Nat) : String :=
  let ds := Nat.toDigits 16 (n % 65536)
  String.mk (List.replicate (4 - ds.length) '0' ++ ds)

/-- Model of the character escaping done by Python's `json.dumps` with
default `ensure_ascii=True`: it escapes `"` and backslash, uses the
short escapes for the usual control characters, `\uXXXX` for other
characters outside the printable ASCII range `0x20..0x7e`, and a
surrogate pair for characters beyond the BMP. -/
def jsonEscapeChar (c : Char) : String :=
  if c = '"' then "\\\""
  else if c = '\\' then "\\\\"
  else if c = '\n' then "\\n"
  else if c = '\t' then "\\t"
  else if c = '\r' then "\\r"
  else if c.toNat = 8 then "\\b"
  else if c.toNat = 12 then "\\f"
  else if c.toNat < 32 ∨ c.toNat > 126 then
    if c.toNat < 65536 then "\\u" ++ hex4 c.toNat
    else
      let m := c.toNat - 65536
      "\\u" ++ hex4 (55296 + m / 1024) ++ "\\u" ++ hex4 (56320 + m % 1024)
  else String.mk [c]

/-- A JSON string literal: quote, escaped characters, quote. -/
def dumpJStr (s : String) : String :=
  "\"" ++ String.join (s.toList.map jsonEscapeChar) ++ "\""

/-- Insert a (key, rendered-member) pair into a list sorted by key,
modelling Python's `sorted` over the dict keys (code-point order). -/
def insertByKey (p : String × String) : List (String × String) → List (String × String)
  | [] => [p]
  | q :: t => if p.1 < q.1 then p :: q :: t else q :: insertByKey p t

/-- Sort members by key (insertion sort). -/
def sortByKey : List (String × String) → List (String × String)
  | [] => []
  | p :: t => insertByKey p (sortByKey t)

mutual

/-- Model of Python's `json.dumps(value, sort_keys=True)` with the
default separators `", "` and `": "`: object members are serialized
independently and emitted in sorted key order, which yields exactly the
text Python produces. -/
def dumpsVal : Json → String
  | Json.null => "null"
  | Json.bool true => "true"
  | Json.bool false => "false"
  | Json.num n => toString n
  | Json.str s => dumpJStr s
  | Json.arr l => "[" ++ String.intercalate ", " (dumpsList l) ++ "]"
  | Json.obj kvs =>
      "\x7b" ++
        String.intercalate ", "
          ((sortByKey (dumpsMembers kvs)).map (fun p => dumpJStr p.1 ++ ": " ++ p.2)) ++
      "\x7d"

/-- Serialize each array element. -/
def dumpsList : List Json → List String
  | [] => []
  | x :: t => dumpsVal x :: dumpsList t

/-- Serialize each object member's value, keeping its key. -/
def dumpsMembers : List (String × Json) → List (String × String)
  | [] => []
  | (k, v) :: t => (k, dumpsVal v) :: dumpsMembers t

end

/-- `json.dumps(obj, sort_keys=True)` as used at device.py:210. -/
def json_dumps_sorted (j : Json) : String := dumpsVal j

/-! ### The paho-mqtt collaborator constants

The underlying MQTT client is external (paho).  We model the two
constants the source reads from it: `mqtt.MQTT_ERR_SUCCESS` (0) and
`mqtt.mqtt_cs_connected` (1), with paho's published values. -/

def MQTT_ERR_SUCCESS : Int := 0

def mqtt_cs_connected : Int := 1

def mqtt_cs_new : Int := 0

/-- Model of the paho client handle stored in `self._mqtt_client`: the
only attribute of it the device code reads is its private `_state`
(in `is_connected`). -/
structure MqttClient where
  state : Int
deriving DecidableEq

/-- The `Device` object's mutable attributes, as set by `__init__`
(device.py:116-126).  Observer callbacks are opaque Python function
objects compared by identity; we model them as natural-number
handles. -/
structure Device where
  device_id : String
  key : String
  secret : String
  secure : Bool
  transport : String
  mqtt_client : Option MqttClient
  observers : List (String × List Nat)
  initial_connect : Bool
  looping : Bool
deriving DecidableEq

/-- `Device.__init__` (device.py:116-126): stores the credentials and
flags (defaults `secure=True`, `transport="tcp"`) and clears the
client handle, observer registry and the two state flags. -/
def Device.init (device_id key secret : String) (secure : Bool := true)
    (transport : String := "tcp") : Device :=
  { device_id := device_id, key := key, secret := secret, secure := secure,
    transport := transport, mqtt_client := none, observers := [],
    initial_connect := false, looping := false }

/-- `Device._command_topic` (device.py:220-221):
`"losant/{0}/command".format(self._device_id)`. -/
def command_topic (d : Device) : String :=
  "losant/" ++ d.device_id ++ "/command"

/-- `Device._state_topic` (device.py:223-224):
`"losant/{0}/state".format(self._device_id)`. -/
def state_topic (d : Device) : String :=
  "losant/" ++ d.device_id ++ "/state"

/-- `Device.is_connected` (device.py:143-146): truthiness of
`self._mqtt_client and self._mqtt_client._state == mqtt.mqtt_cs_connected`. -/
def is_connected (d : Device) : Bool :=
  match d.mqtt_client with
  | none => false
  | some c => c.state == mqtt_cs_connected

/-! ### Observer registry -/

/-- Look up the list registered under an event name
(Python `event_name in self._observers` / `self._observers[event_name]`). -/
def obsLookup (obs : List (String × List Nat)) (e : String) : Option (List Nat) :=
  match obs with
  | [] => none
  | (k, l) :: t => if k = e then some l else obsLookup t e

/-- Replace the list stored under a registered event name. -/
def obsSet (obs : List (String × List Nat)) (e : String) (l : List Nat) :
    List (String × List Nat) :=
  match obs with
  | [] => []
  | (k, l0) :: t => if k = e then (k, l) :: t else (k, l0) :: obsSet t e l

/-- `Device.add_event_observer` (device.py:128-136): append to the
event's list when the event is registered, else create a singleton
list for it. -/
def add_event_observer (d : Device) (e : String) (o : Nat) : Device :=
  match obsLookup d.observers e with
  | some l => { d with observers := obsSet d.observers e (l ++ [o]) }
  | none => { d with observers := d.observers ++ [(e, [o])] }

/-- Python's `list.remove(x)`: drop the first occurrence of `x`;
`none` models the `ValueError` it raises when `x` is absent. -/
def listRemoveFirst (l : List Nat) (x : Nat) : Option (List Nat) :=
  match l with
  | [] => none
  | y :: t =>
    if y = x then some t
    else (listRemoveFirst t x).map (fun t2 => y :: t2)

/-- `Device.remove_event_observer` (device.py:138-141): when the event
name is registered, `self._observers[event_name].remove(observer)`
(which raises `ValueError`, modelled as `none`, if the observer is not
in the list); when it is not registered, do nothing. -/
def remove_event_observer (d : Device) (e : String) (o : Nat) : Option Device :=
  match obsLookup d.observers e with
  | none => some d
  | some l =>
    (listRemoveFirst l o).map (fun l2 => { d with observers := obsSet d.observers e l2 })

/-! ### send_state -/

/-- The `time_like` argument of `send_state`.  The source inspects its
dynamic type: a `datetime.datetime` (modelled by the UTC epoch seconds
of its `utctimetuple()` together with its `microsecond` attribute), a
`time.struct_time` (modelled by the local-epoch seconds `time.mktime`
returns for it, since that conversion depends on the host timezone),
an `int`, or `None` (the default). -/
inductive TimeLike where
  | noneT : TimeLike
  | int : Int → TimeLike
  | datetime : Int → Nat → TimeLike
  | struct_time : Int → TimeLike
deriving DecidableEq

/-- The `time_like` normalization in `send_state` (device.py:199-208):
a datetime becomes `int(timegm(utctimetuple()) * 1000 + microsecond / 1000)`
(exact integer arithmetic; float rounding is not modelled), a
struct_time becomes `int(mktime(t) * 1000)`, and then any falsy value
(`None`, or the integer 0) is replaced by the current wall-clock
milliseconds, supplied here as `now_ms`. -/
def normalizeTime (t : TimeLike) (now_ms : Int) : Int :=
  let converted : Option Int :=
    match t with
    | TimeLike.noneT => none
    | TimeLike.int n => some n
    | TimeLike.datetime s mu => some (Int.tdiv (s * 1000000 + (mu : Int)) 1000)
    | TimeLike.struct_time s => some (s * 1000)
  match converted with
  | none => now_ms
  | some n => if n = 0 then now_ms else n

/-- Outcome of one `send_state` call: the (topic, payload) handed to
the client's `publish` when one was attempted, and the value the
method returns. -/
structure SendResult where
  published : Option (String × String)
  retval : Bool
deriving DecidableEq

/-- `Device.send_state` (device.py:193-213).  Returns `False` without
touching the connection when no client handle exists; otherwise
normalizes `time_like`, serializes
`json.dumps(dict with keys time and data, sort_keys=True)` and publishes it to
the state topic.  The external `publish` call's return code is the
parameter `publish_rc`; the method's result is
`mqtt.MQTT_ERR_SUCCESS == publish_rc`. -/
def send_state (d : Device) (state : Json) (t : TimeLike) (now_ms : Int)
    (publish_rc : Int) : SendResult :=
  match d.mqtt_client with
  | none => { published := none, retval := false }
  | some _ =>
    let ms := normalizeTime t now_ms
    let payload := json_dumps_sorted (Json.obj [("time", Json.num ms), ("data", state)])
    { published := some (state_topic d, payload),
      retval := MQTT_ERR_SUCCESS == publish_rc }

/-! ### Reconnect policy and the client callbacks

The underlying client's `reconnect()` is an external call.  Python's
`try/except socket.error` dispatches on the dynamic type of whatever
it raises, so its outcome is modelled by three cases: it returned, it
raised a `socket.error`, or it raised an exception of any other
type. -/

/-- Possible outcomes of the external `self._mqtt_client.reconnect()` call. -/
inductive ReconnectOutcome where
  | ok : ReconnectOutcome
  | socketError : ReconnectOutcome
  | otherError : ReconnectOutcome
deriving DecidableEq

/-- Observable result of `Device._wrapped_reconnect`:
how many times the underlying `reconnect()` was called, and whether an
exception propagated out of the method. -/
structure ReconnectResult where
  attempts : Nat
  raised : Bool
deriving DecidableEq

/-- `Device._wrapped_reconnect` (device.py:276-282): when the device is
in blocking mode (`self._looping`) it does nothing, because
`loop_forever` retries internally; otherwise it calls `reconnect()`
once inside `try/except socket.error`, so a `socket.error` is logged
and swallowed while an exception of any other type propagates. -/
def wrapped_reconnect (d : Device) (out : ReconnectOutcome) : ReconnectResult :=
  if d.looping then { attempts := 0, raised := false }
  else
    match out with
    | ReconnectOutcome.ok => { attempts := 1, raised := false }
    | ReconnectOutcome.socketError => { attempts := 1, raised := false }
    | ReconnectOutcome.otherError => { attempts := 1, raised := true }

/-- Observable result of one `Device.loop` call. -/
structure LoopResult where
  misuse_raised : Bool
  ticked : Bool
  reconnect_invocations : Nat
  attempts : Nat
  raised : Bool
deriving DecidableEq

/-- `Device.loop` (device.py:176-185): raises
`Exception("Connection in blocking mode, don't call loop")` first when
`self._looping` is set; otherwise, when a client handle exists, calls
the client's network tick (whose return code is the external parameter
`loop_rc`) and, when the tick result is not `MQTT_ERR_SUCCESS`, calls
`_wrapped_reconnect` once. -/
def loop (d : Device) (loop_rc : Int) (out : ReconnectOutcome) : LoopResult :=
  if d.looping then
    { misuse_raised := true, ticked := false, reconnect_invocations := 0,
      attempts := 0, raised := false }
  else
    match d.mqtt_client with
    | none =>
      { misuse_raised := false, ticked := false, reconnect_invocations := 0,
        attempts := 0, raised := false }
    | some _ =>
      if loop_rc = MQTT_ERR_SUCCESS then
        { misuse_raised := false, ticked := true, reconnect_invocations := 0,
          attempts := 0, raised := false }
      else
        let r := wrapped_reconnect d out
        { misuse_raised := false, ticked := true, reconnect_invocations := 1,
          attempts := r.attempts, raised := r.raised }

/-- Observable result of the on-connect callback. -/
structure ConnectCbResult where
  subscribed : List String
  fired : List String
  invalid_creds_raised : Bool
  reconnect_invocations : Nat
  attempts : Nat
  raised : Bool
  dev : Device
deriving DecidableEq

/-- `Device._cb_client_connect` (device.py:235-253): on response code 0
it subscribes to the command topic and fires `"connect"` (clearing
`_initial_connect`) on the first-ever success, else `"reconnect"`; on a
code in `(1, 2, 4, 5)` it raises the invalid-credentials exception; on
any other code it calls `_wrapped_reconnect` once. -/
def cb_client_connect (d : Device) (response_code : Int) (out : ReconnectOutcome) :
    ConnectCbResult :=
  if response_code = 0 then
    if d.initial_connect then
      { subscribed := [command_topic d], fired := ["connect"],
        invalid_creds_raised := false, reconnect_invocations := 0, attempts := 0,
        raised := false, dev := { d with initial_connect := false } }
    else
      { subscribed := [command_topic d], fired := ["reconnect"],
        invalid_creds_raised := false, reconnect_invocations := 0, attempts := 0,
        raised := false, dev := d }
  else if response_code = 1 ∨ response_code = 2 ∨ response_code = 4 ∨ response_code = 5 then
    { subscribed := [], fired := [], invalid_creds_raised := true,
      reconnect_invocations := 0, attempts := 0, raised := false, dev := d }
  else
    let r := wrapped_reconnect d out
    { subscribed := [], fired := [], invalid_creds_raised := false,
      reconnect_invocations := 1, attempts := r.attempts, raised := r.raised, dev := d }

/-- Observable result of the on-disconnect callback. -/
structure DisconnectCbResult where
  fired : List String
  reconnect_invocations : Nat
  attempts : Nat
  raised : Bool
  dev : Device
deriving DecidableEq

/-- `Device._cb_client_disconnect` (device.py:255-264): a no-op without
a client handle; on `MQTT_ERR_SUCCESS` (intentional disconnect) clears
the handle and fires `"close"`; on any other code calls
`_wrapped_reconnect` once. -/
def cb_client_disconnect (d : Device) (response_code : Int) (out : ReconnectOutcome) :
    DisconnectCbResult :=
  match d.mqtt_client with
  | none =>
    { fired := [], reconnect_invocations := 0, attempts := 0, raised := false, dev := d }
  | some _ =>
    if response_code = MQTT_ERR_SUCCESS then
      { fired := ["close"], reconnect_invocations := 0, attempts := 0, raised := false,
        dev := { d with mqtt_client := none } }
    else
      let r := wrapped_reconnect d out
      { fired := [], reconnect_invocations := 1, attempts := r.attempts,
        raised := r.raised, dev := d }

/-! ### Decoded Python values and the extended JSON decoder

`json.loads(..., object_hook=ext_json_decode)` produces ordinary
Python values plus `datetime` objects (from `$date` markers) and
`None` (from `$undefined` markers).  An aware UTC `datetime` is
represented by its instant in microseconds since 1970-01-01 UTC:
Python compares and subtracts aware datetimes by instant, so this
quotient is faithful for every operation the source performs
(`datetime.min/max` range limits and float-based APIs are not
modelled). -/

/-- Values produced by the extended JSON decoding path. -/
inductive PyVal where
  | nonePy : PyVal
  | bool : Bool → PyVal
  | int : Int → PyVal
  | str : String → PyVal
  | list : List PyVal → PyVal
  | dict : List (String × PyVal) → PyVal
  | datetime : Int → PyVal

/-- Python `s[-k]` on a string (`k ≥ 1`): `none` models the
`IndexError` raised when the string is shorter than `k`. -/
def pyNeg (s : List Char) (k : Nat) : Option Char := s.reverse[k - 1]?

/-- Python `s[-k:]`: the last `k` characters (the whole string when it
is shorter, as Python slices never fail). -/
def pyLastN (s : List Char) (k : Nat) : List Char := s.drop (s.length - k)

/-- Python `s[:-k]`: everything but the last `k` characters. -/
def pyDropLastN (s : List Char) (k : Nat) : List Char := s.take (s.length - k)

/-- Decimal digit test (`'0' ≤ c ≤ '9'`, stated on code points). -/
def isDig (c : Char) : Bool := decide (48 ≤ c.toNat ∧ c.toNat ≤ 57)

/-- Numeric value of a decimal digit character. -/
def d2n (c : Char) : Nat := c.toNat - 48

/-- The number denoted by a list of decimal digit characters. -/
def digitsToNat (s : List Char) : Nat := s.foldl (fun a c => 10 * a + d2n c) 0

/-- Model of Python `int(str)` restricted to an optional single sign
followed by decimal digits (`int` also tolerates surrounding
whitespace and underscores, which never occur here); `none` models the
`ValueError` on anything else. -/
def pyInt (s : List Char) : Option Int :=
  match s with
  | [] => none
  | c :: t =>
    if c = '+' then
      if t ≠ [] ∧ t.all isDig then some (digitsToNat t : Int) else none
    else if c = '-' then
      if t ≠ [] ∧ t.all isDig then some (-(digitsToNat t : Int)) else none
    else if (c :: t).all isDig then some (digitsToNat (c :: t) : Int) else none

/-- Model of Python `str.split(":")`: split at every colon, keeping
empty parts. -/
def pySplitColon : List Char → List (List Char)
  | [] => [[]]
  | c :: t =>
    if c = ':' then [] :: pySplitColon t
    else
      match pySplitColon t with
      | h :: r => (c :: h) :: r
      | [] => [[c]]

/-- Gregorian leap-year rule, as implemented by Python `datetime`. -/
def isLeap (y : Nat) : Bool := decide ((y % 4 = 0 ∧ y % 100 ≠ 0) ∨ y % 400 = 0)

/-- Length of a month in the proleptic Gregorian calendar. -/
def daysInMonth (y m : Nat) : Nat :=
  if m = 2 then (if isLeap y then 29 else 28)
  else if m = 4 ∨ m = 6 ∨ m = 9 ∨ m = 11 then 30
  else 31

/-- Days from 1970-01-01 to the civil date `y-m-d` in the proleptic
Gregorian calendar (valid for `1 ≤ y`, `1 ≤ m ≤ 12`), the standard
era-based conversion `datetime.toordinal` agrees with. -/
def daysFromCivil (y m d : Nat) : Int :=
  let yAdj := if m ≤ 2 then y - 1 else y
  let era := yAdj / 400
  let yoe := yAdj % 400
  let mp := if 2 < m then m - 3 else m + 9
  let doy := (153 * mp + 2) / 5 + (d - 1)
  let doe := yoe * 365 + yoe / 4 - yoe / 100 + doy
  ((era * 146097 + doe : Nat) : Int) - 719468

/-- Model of `datetime.datetime.strptime(dstr, "%Y-%m-%dT%H:%M:%S.%f")`
followed by `.replace(tzinfo=UTC)` (device.py:86), restricted to the
canonical zero-padded widths (4-2-2-2-2-2 and a 1-6 digit fraction;
CPython additionally tolerates unpadded one-digit fields, which the
platform never emits).  `%f` right-pads the fraction digits to
microseconds.  The result is the UTC instant in microseconds; `none`
models the `ValueError` on any mismatch or out-of-range component. -/
def strptime_iso (s : List Char) : Option Int :=
  match s with
  | y1 :: y2 :: y3 :: y4 :: '-' :: m1 :: m2 :: '-' :: d1 :: d2 :: 'T' ::
    h1 :: h2 :: ':' :: n1 :: n2 :: ':' :: s1 :: s2 :: '.' :: fs =>
    if ([y1, y2, y3, y4, m1, m2, d1, d2, h1, h2, n1, n2, s1, s2].all isDig
        ∧ fs ≠ [] ∧ fs.length ≤ 6 ∧ fs.all isDig) then
      let y := digitsToNat [y1, y2, y3, y4]
      let mo := digitsToNat [m1, m2]
      let dd := digitsToNat [d1, d2]
      let hh := digitsToNat [h1, h2]
      let mi := digitsToNat [n1, n2]
      let ss := digitsToNat [s1, s2]
      let usec := digitsToNat fs * 10 ^ (6 - fs.length)
      if 1 ≤ y ∧ 1 ≤ mo ∧ mo ≤ 12 ∧ 1 ≤ dd ∧ dd ≤ daysInMonth y mo
          ∧ hh ≤ 23 ∧ mi ≤ 59 ∧ ss ≤ 59 then
        some (daysFromCivil y mo dd * 86400000000
          + (((hh * 3600 + mi * 60 + ss) * 1000000 + usec : Nat) : Int))
      else none
    else none
  | _ => none

/-- The offset dispatch of `ext_json_decode` (device.py:66-84),
translated clause by clause: inspect `dtm[-1]`, `dtm[-3]` and
`dtm[-5]` in that order (`none` models the `IndexError` on too-short
strings) and split the string into its wall-clock part `dstr` and its
`offset` slice. -/
def splitOffset (dtm : List Char) : Option (List Char × List Char) :=
  match pyNeg dtm 1 with
  | none => none
  | some c1 =>
    if c1 = 'Z' then some (pyDropLastN dtm 1, ['Z'])
    else
      match pyNeg dtm 3 with
      | none => none
      | some c3 =>
        if c3 = ':' then some (pyDropLastN dtm 6, pyLastN dtm 6)
        else
          match pyNeg dtm 5 with
          | none => none
          | some c5 =>
            if c5 = '+' ∨ c5 = '-' then some (pyDropLastN dtm 5, pyLastN dtm 5)
            else if c3 = '+' ∨ c3 = '-' then some (pyDropLastN dtm 3, pyLastN dtm 3)
            else some (dtm, ([] : List Char))

/-- The offset-seconds computation of `ext_json_decode`
(device.py:92-98): by the length of the offset slice — 6
(`(+|-)HH:MM`, via `offset[1:].split(":")`, which must yield exactly
two `int`-parseable parts), 5 (`(+|-)HHMM`) or 3 (`(+|-)HH`); any
other length leaves `secs` unbound, a `NameError` modelled by
`none`. -/
def offsetSecs (offset : List Char) : Option Int :=
  if offset.length = 6 then
    match pySplitColon (offset.drop 1) with
    | [hs, ms] =>
      match pyInt hs, pyInt ms with
      | some h, some m => some (h * 3600 + m * 60)
      | _, _ => none
    | _ => none
  else if offset.length = 5 then
    match pyInt ((offset.drop 1).take 2), pyInt (offset.drop 3) with
    | some h, some m => some (h * 3600 + m * 60)
    | _, _ => none
  else if offset.length = 3 then
    match pyInt ((offset.drop 1).take 2) with
    | some h => some (h * 3600)
    | none => none
  else none

/-- The `$date` string handling of `ext_json_decode` (device.py:64-101):
split off the offset, parse the rest with `strptime`, return it
directly for an empty or `Z` offset, and otherwise subtract the offset
seconds, negated first when the offset slice starts with `-`
(`aware - datetime.timedelta(seconds=secs)` on the microsecond
timeline). -/
def parse_ext_date (dtm : List Char) : Option Int :=
  match splitOffset dtm with
  | none => none
  | some (dstr, offset) =>
    match strptime_iso dstr with
    | none => none
    | some aware =>
      if offset = [] ∨ offset = ['Z'] then some aware
      else
        match offsetSecs offset with
        | none => none
        | some secs =>
          some (aware - (if offset[0]? = some '-' then -secs else secs) * 1000000)

/-- First binding of a key in a decoded dict (keys are unique because
the parser overwrites duplicates the way Python dict insertion does). -/
def dictLookup (l : List (String × PyVal)) (k : String) : Option PyVal :=
  match l with
  | [] => none
  | (k0, v) :: t => if k0 = k then some v else dictLookup t k

/-- `ext_json_decode` (device.py:59-104) on a decoded JSON object: a
`$date` member whose value is a string is parsed into an aware UTC
datetime (`none` models the exception when the date string is invalid,
and also the `TypeError` when the `$date` value is not a string); else
a `$undefined` member makes the object decode to `None`; else the dict
is returned unchanged. -/
def ext_json_decode (dct : List (String × PyVal)) : Option PyVal :=
  match dictLookup dct "$date" with
  | some (PyVal.str s) => (parse_ext_date s.toList).map PyVal.datetime
  | some _ => none
  | none =>
    if (dictLookup dct "$undefined").isSome then some PyVal.nonePy
    else some (PyVal.dict dct)

/-! ### Model of `json.loads(payload, object_hook=ext_json_decode)`

A recursive-descent parser for the JSON fragment the platform sends
(objects, arrays, strings with the standard escapes, integers, `true`,
`false`, `null`), applying `ext_json_decode` to every object as Python
does.  Floating-point literals and surrogate-pair recombination in
`\u` escapes are not modelled; `none` models the `ValueError` that
`json.loads` raises on malformed input. -/

/-- The whitespace characters `json.loads` skips between tokens. -/
def skipWs (s : List Char) : List Char :=
  s.dropWhile (fun c => c = ' ' ∨ c = '\t' ∨ c = '\n' ∨ c = '\r')

/-- Hex digit value, for `\uXXXX` escapes. -/
def hexVal (c : Char) : Option Nat :=
  if c.isDigit then some (c.toNat - 48)
  else if 'a' ≤ c ∧ c ≤ 'f' then some (c.toNat - 87)
  else if 'A' ≤ c ∧ c ≤ 'F' then some (c.toNat - 55)
  else none

/-- Body of a JSON string literal after the opening quote: standard
escapes, raw control characters rejected (default `strict=True`). -/
def parseStringBody (fuel : Nat) (s : List Char) (acc : List Char) :
    Option (String × List Char) :=
  match fuel, s with
  | 0, _ => none
  | _, [] => none
  | f + 1, c :: t =>
    if c = '"' then some (String.mk acc.reverse, t)
    else if c = '\\' then
      match t with
      | [] => none
      | e :: t2 =>
        if e = '"' then parseStringBody f t2 ('"' :: acc)
        else if e = '\\' then parseStringBody f t2 ('\\' :: acc)
        else if e = '/' then parseStringBody f t2 ('/' :: acc)
        else if e = 'b' then parseStringBody f t2 (Char.ofNat 8 :: acc)
        else if e = 'f' then parseStringBody f t2 (Char.ofNat 12 :: acc)
        else if e = 'n' then parseStringBody f t2 ('\n' :: acc)
        else if e = 'r' then parseStringBody f t2 ('\r' :: acc)
        else if e = 't' then parseStringBody f t2 ('\t' :: acc)
        else if e = 'u' then
          match t2 with
          | a :: b :: c2 :: d :: t3 =>
            match hexVal a, hexVal b, hexVal c2, hexVal d with
            | some va, some vb, some vc, some vd =>
              parseStringBody f t3 (Char.ofNat (va * 4096 + vb * 256 + vc * 16 + vd) :: acc)
            | _, _, _, _ => none
          | _ => none
        else none
    else if c.toNat < 32 then none
    else parseStringBody f t (c :: acc)

/-- A JSON integer literal: optional minus, digits, no leading zero. -/
def parseIntTok (s : List Char) : Option (Int × List Char) :=
  match s with
  | '-' :: t =>
    let ds := t.takeWhile Char.isDigit
    if ds = [] ∨ (1 < ds.length ∧ ds[0]? = some '0') then none
    else some (-(digitsToNat ds : Int), t.drop ds.length)
  | t =>
    let ds := t.takeWhile Char.isDigit
    if ds = [] ∨ (1 < ds.length ∧ ds[0]? = some '0') then none
    else some ((digitsToNat ds : Int), t.drop ds.length)

/-- Python dict insertion: a duplicate key overwrites the stored value
but keeps the first insertion position. -/
def dictInsert (l : List (String × PyVal)) (k : String) (v : PyVal) :
    List (String × PyVal) :=
  match l with
  | [] => [(k, v)]
  | (k0, v0) :: t => if k0 = k then (k0, v) :: t else (k0, v0) :: dictInsert t k v

mutual

/-- Parse one JSON value (input already whitespace-skipped). -/
def parseVal (fuel : Nat) (s : List Char) : Option (PyVal × List Char) :=
  match fuel with
  | 0 => none
  | f + 1 =>
    match s with
    | 'n' :: 'u' :: 'l' :: 'l' :: t => some (PyVal.nonePy, t)
    | 't' :: 'r' :: 'u' :: 'e' :: t => some (PyVal.bool true, t)
    | 'f' :: 'a' :: 'l' :: 's' :: 'e' :: t => some (PyVal.bool false, t)
    | '"' :: t => (parseStringBody (t.length + 1) t []).map (fun p => (PyVal.str p.1, p.2))
    | '[' :: t =>
      (match skipWs t with
       | ']' :: r => some (PyVal.list [], r)
       | t2 => parseElems f t2 [])
    | '\x7b' :: t =>
      (match skipWs t with
       | '\x7d' :: r => (ext_json_decode []).map (fun v => (v, r))
       | t2 => parseMembers f t2 [])
    | _ => (parseIntTok s).map (fun p => (PyVal.int p.1, p.2))

/-- Parse the remaining elements of a non-empty array. -/
def parseElems (fuel : Nat) (s : List Char) (acc : List PyVal) :
    Option (PyVal × List Char) :=
  match fuel with
  | 0 => none
  | f + 1 => do
    let (v, r) ← parseVal f s
    match skipWs r with
    | ',' :: r2 => parseElems f (skipWs r2) (v :: acc)
    | ']' :: r2 => some (PyVal.list (v :: acc).reverse, r2)
    | _ => none

/-- Parse the remaining members of a non-empty object, applying the
`ext_json_decode` hook to the finished dict as `json.loads` does. -/
def parseMembers (fuel : Nat) (s : List Char) (acc : List (String × PyVal)) :
    Option (PyVal × List Char) :=
  match fuel with
  | 0 => none
  | f + 1 =>
    match s with
    | '"' :: t => do
      let (k, r) ← parseStringBody (t.length + 1) t []
      match skipWs r with
      | ':' :: r2 => do
        let (v, r3) ← parseVal f (skipWs r2)
        match skipWs r3 with
        | ',' :: r4 => parseMembers f (skipWs r4) (dictInsert acc k v)
        | '\x7d' :: r4 => (ext_json_decode (dictInsert acc k v)).map (fun w => (w, r4))
        | _ => none
      | _ => none
    | _ => none

end

/-- `json.loads(payload, object_hook=ext_json_decode)` as called at
device.py:273: parse one value, with whitespace allowed around it, and
reject trailing garbage; `none` models a raised exception (malformed
input, or an error inside the hook). -/
def json_loads_ext (s : String) : Option PyVal :=
  let cs := skipWs s.toList
  match parseVal (cs.length + 2) cs with
  | some (v, rest) => if skipWs rest = [] then some v else none
  | none => none

/-- Observable result of the on-message callback: the value the
`"command"` event was fired with, if any, and whether an exception
escaped the callback. -/
structure CommandCbResult where
  fired : Option PyVal
  raised : Bool

/-- `Device._cb_client_command` (device.py:266-274): a falsy payload
(absent, or the empty string) returns silently; otherwise the payload
text is parsed by `json.loads(payload, object_hook=ext_json_decode)` —
with no surrounding `try/except`, so a parse error escapes the
callback — and the `"command"` event is fired with the decoded value.
The byte-level UTF-8 decode at device.py:271-272 is not separately
modelled: the payload is taken as the decoded text. -/
def cb_client_command (_d : Device) (payload : Option String) : CommandCbResult :=
  match payload with
  | none => { fired := none, raised := false }
  | some s =>
    if s = "" then { fired := none, raised := false }
    else
      match json_loads_ext s with
      | none => { fired := none, raised := true }
      | some v => { fired := some v, raised := false }

/-! ### Canonical date-string builders

Used to quantify over all `$date` strings of the canonical wall-clock
shape with each of the offset forms the decoder supports. -/

/-- The character of a decimal digit (`n` taken mod 10). -/
def digitOf (n : Nat) : Char := Char.ofNat (48 + n % 10)

/-- The canonical wall-clock part `YYYY-MM-DDTHH:MM:SS.` followed by
the fraction digits `fs`. -/
def mkWall (y mo dd hh mi ss : Nat) (fs : List Char) : List Char :=
  [digitOf (y / 1000), digitOf (y / 100), digitOf (y / 10), digitOf y, '-',
   digitOf (mo / 10), digitOf mo, '-', digitOf (dd / 10), digitOf dd, 'T',
   digitOf (hh / 10), digitOf hh, ':', digitOf (mi / 10), digitOf mi, ':',
   digitOf (ss / 10), digitOf ss, '.'] ++ fs

/-- An offset in `(+|-)HH:MM` form. -/
def offColon (sgn : Char) (oh om : Nat) : List Char :=
  [sgn, digitOf (oh / 10), digitOf oh, ':', digitOf (om / 10), digitOf om]

/-- An offset in `(+|-)HHMM` form. -/
def offHHMM (sgn : Char) (oh om : Nat) : List Char :=
  [sgn, digitOf (oh / 10), digitOf oh, digitOf (om / 10), digitOf om]

/-- An offset in `(+|-)HH` form. -/
def offHH (sgn : Char) (oh : Nat) : List Char :=
  [sgn, digitOf (oh / 10), digitOf oh]

/-- The UTC instant (microseconds since epoch) denoted by the
canonical wall-clock components read as UTC. -/
def wallInstant (y mo dd hh mi ss : Nat) (fs : List Char) : Int :=
  daysFromCivil y mo dd * 86400000000
    + (((hh * 3600 + mi * 60 + ss) * 1000000 + digitsToNat fs * 10 ^ (6 - fs.length) : Nat) : Int)

/-! ### Concrete devices used by the witnesses and counterexamples -/

/-- A device whose client handle reports the connected state. -/
def devConnected : Device :=
  { Device.init "device_id" "device_key" "device_secret" with
    mqtt_client := some { state := mqtt_cs_connected } }

/-- A device holding a client handle whose state is not
`mqtt_cs_connected` (as after `connect()` before the broker replies,
or as in the repository's own test, which installs a mock client). -/
def devHalfOpen : Device :=
  { Device.init "device_id" "device_key" "device_secret" with
    mqtt_client := some { state := mqtt_cs_new } }

/-- A device with one observer (handle 1) registered for `"connect"`. -/
def devObs : Device :=
  { Device.init "device_id" "device_key" "device_secret" with
    observers := [("connect", [1])] }

/-- A device connected in blocking mode (`connect(blocking=True)` sets
`self._looping`). -/
def devBlocking : Device :=
  { Device.init "device_id" "device_key" "device_secret" with
    mqtt_client := some { state := mqtt_cs_connected }, looping := true }

/-- A device between `connect()` and the first successful connect
callback: `_initial_connect` is set. -/
def devFirstConnect : Device :=
  { Device.init "device_id" "device_key" "device_secret" with
    mqtt_client := some { state := mqtt_cs_new }, initial_connect := true }

/-! ### General lemmas -/

/-- Unfolding `send_state` when a client handle exists. -/
theorem send_state_some (d : Device) (c : MqttClient) (h : d.mqtt_client = some c)
    (state : Json) (t : TimeLike) (now_ms publish_rc : Int) :
    send_state d state t now_ms publish_rc =
      { published := some (state_topic d,
          json_dumps_sorted (Json.obj
            [("time", Json.num (normalizeTime t now_ms)), ("data", state)])),
        retval := MQTT_ERR_SUCCESS == publish_rc } := by
  unfold send_state
  rw [h]

/-- Python `list.remove` raises exactly when the element is absent. -/
theorem listRemoveFirst_eq_none_iff (l : List Nat) (x : Nat) :
    listRemoveFirst l x = none ↔ x ∉ l := by
  induction l with
  | nil => simp [listRemoveFirst]
  | cons y t ih =>
    by_cases hyx : y = x
    · subst hyx
      simp [listRemoveFirst]
    · simp [listRemoveFirst, hyx, ih, Ne.symm hyx]

/-- Evaluation of the serializer on the payload of the repository's
own `send_state` test: keys come out sorted (`data` before `time`). -/
theorem dumps_c1_payload :
    json_dumps_sorted
        (Json.obj [("time", Json.num 1234), ("data", Json.obj [("one", Json.str "two")])])
      = "\x7b\"data\": \x7b\"one\": \"two\"\x7d, \"time\": 1234\x7d" := by
  simp [json_dumps_sorted, dumpsVal, dumpsMembers, dumpsList, sortByKey, insertByKey,
    dumpJStr, jsonEscapeChar, String.intercalate]
  decide

/-- `send_state` with the test state and time 1234 on any device
holding a client handle. -/
theorem send_state_1234_one_two (d : Device) (c : MqttClient)
    (h : d.mqtt_client = some c) (now_ms publish_rc : Int) :
    send_state d (Json.obj [("one", Json.str "two")]) (TimeLike.int 1234) now_ms publish_rc
      = { published := some (state_topic d,
            "\x7b\"data\": \x7b\"one\": \"two\"\x7d, \"time\": 1234\x7d"),
          retval := MQTT_ERR_SUCCESS == publish_rc } := by
  rw [send_state_some d c h]
  have hn : normalizeTime (TimeLike.int 1234) now_ms = 1234 := by
    norm_num [normalizeTime]
  rw [hn, dumps_c1_payload]

/-! ### Digit-character facts (for the date-offset claim) -/

/-- Code point of a digit character. -/
theorem toNat_digitOf (n : Nat) : (digitOf n).toNat = 48 + n % 10 := by
  obtain ⟨k, hk, hlt⟩ : ∃ k, n % 10 = k ∧ k < 10 :=
    ⟨n % 10, rfl, Nat.mod_lt n (by norm_num)⟩
  unfold digitOf
  rw [hk]
  interval_cases k <;> decide

/-- A digit character differs from any character whose code point is
outside `48..57`. -/
theorem digitOf_ne (n : Nat) (c : Char) (h : c.toNat < 48 ∨ 57 < c.toNat) :
    digitOf n ≠ c := by
  intro he
  have h2 := congrArg Char.toNat he
  rw [toNat_digitOf] at h2
  have h3 : n % 10 < 10 := Nat.mod_lt n (by norm_num)
  omega

/-- Digit characters pass the digit test. -/
theorem isDig_digitOf (n : Nat) : isDig (digitOf n) = true := by
  have h3 : n % 10 < 10 := Nat.mod_lt n (by norm_num)
  simp [isDig, toNat_digitOf]
  omega

/-- Value of a digit character. -/
theorem d2n_digitOf (n : Nat) : d2n (digitOf n) = n % 10 := by
  unfold d2n
  rw [toNat_digitOf]
  omega

/-- Recomposing a two-digit rendering. -/
theorem digitsToNat_two (x : Nat) (h : x ≤ 99) :
    digitsToNat [digitOf (x / 10), digitOf x] = x := by
  simp [digitsToNat, d2n_digitOf]
  omega

/-- Recomposing a four-digit rendering. -/
theorem digitsToNat_four (x : Nat) (h : x ≤ 9999) :
    digitsToNat [digitOf (x / 1000), digitOf (x / 100), digitOf (x / 10), digitOf x] = x := by
  simp [digitsToNat, d2n_digitOf]
  omega

/-! ### The claims -/

/-- C9: for every device id `d`, the derived command topic is
`"losant/" ++ d ++ "/command"` and the state topic is
`"losant/" ++ d ++ "/state"`; in particular a device constructed with
id `"device_id"` has command topic `"losant/device_id/command"` and
state topic `"losant/device_id/state"`. -/
theorem C9_topic_naming (d : Device) :
    command_topic d = "losant/" ++ d.device_id ++ "/command"
    ∧ state_topic d = "losant/" ++ d.device_id ++ "/state"
    ∧ command_topic (Device.init "device_id" "device_key" "device_secret")
        = "losant/device_id/command"
    ∧ state_topic (Device.init "device_id" "device_key" "device_secret")
        = "losant/device_id/state" :=
  ⟨rfl, rfl, by decide, by decide⟩

/-- C1: on a connected device, `send_state` with state `one ↦ two` and
time 1234 publishes to the state topic exactly the JSON text with keys
in sorted order, and returns true iff the publish call reports
success (`MQTT_ERR_SUCCESS`). -/
theorem C1_send_state_payload (d : Device) (h : is_connected d = true)
    (now_ms publish_rc : Int) :
    (send_state d (Json.obj [("one", Json.str "two")]) (TimeLike.int 1234)
        now_ms publish_rc).published
      = some (state_topic d, "\x7b\"data\": \x7b\"one\": \"two\"\x7d, \"time\": 1234\x7d")
    ∧ ((send_state d (Json.obj [("one", Json.str "two")]) (TimeLike.int 1234)
          now_ms publish_rc).retval = true
        ↔ publish_rc = MQTT_ERR_SUCCESS) := by
  obtain ⟨c, hc⟩ : ∃ c, d.mqtt_client = some c := by
    unfold is_connected at h
    cases hd : d.mqtt_client with
    | none => rw [hd] at h; cases h
    | some c => exact ⟨c, rfl⟩
  rw [send_state_1234_one_two d c hc]
  exact ⟨rfl, by simp only [beq_iff_eq]; exact ⟨Eq.symm, Eq.symm⟩⟩

/-- C1 witness: a concretely connected device, with `publish`
reporting success. -/
theorem C1_send_state_payload_witness :
    is_connected devConnected = true
    ∧ ((send_state devConnected (Json.obj [("one", Json.str "two")]) (TimeLike.int 1234)
          999 0).published
        = some (state_topic devConnected,
            "\x7b\"data\": \x7b\"one\": \"two\"\x7d, \"time\": 1234\x7d")
      ∧ ((send_state devConnected (Json.obj [("one", Json.str "two")]) (TimeLike.int 1234)
            999 0).retval = true
          ↔ (0 : Int) = MQTT_ERR_SUCCESS)) :=
  ⟨by decide, C1_send_state_payload devConnected (by decide) 999 0⟩

/-- C2 counterexample: `devHalfOpen` holds a client handle whose state
is not connected, so `is_connected` is false; yet `send_state` still
publishes and returns true, refuting the claim that every
not-connected device gets a no-op returning false. -/
theorem C2_counterexample :
    is_connected devHalfOpen = false
    ∧ (send_state devHalfOpen (Json.obj [("one", Json.str "two")]) (TimeLike.int 1234)
        999 MQTT_ERR_SUCCESS).published
        = some ("losant/device_id/state",
            "\x7b\"data\": \x7b\"one\": \"two\"\x7d, \"time\": 1234\x7d")
    ∧ (send_state devHalfOpen (Json.obj [("one", Json.str "two")]) (TimeLike.int 1234)
        999 MQTT_ERR_SUCCESS).retval = true := by
  have h := send_state_1234_one_two devHalfOpen { state := mqtt_cs_new } rfl
    999 MQTT_ERR_SUCCESS
  refine ⟨by decide, ?_, ?_⟩
  · rw [h]; rfl
  · rw [h]; rfl

/-- C2 amended: for every device whose client handle is absent
(`self._mqtt_client is None` — the only condition `send_state` checks),
`send_state` performs no publish and returns false, without raising. -/
theorem C2_no_client_no_publish (d : Device) (h : d.mqtt_client = none)
    (state : Json) (t : TimeLike) (now_ms publish_rc : Int) :
    send_state d state t now_ms publish_rc = { published := none, retval := false } := by
  unfold send_state
  rw [h]

/-- C2 witness: a freshly constructed device has no client handle. -/
theorem C2_no_client_no_publish_witness :
    send_state (Device.init "device_id" "device_key" "device_secret")
        Json.null TimeLike.noneT 999 0 = { published := none, retval := false } :=
  C2_no_client_no_publish (Device.init "device_id" "device_key" "device_secret")
    rfl Json.null TimeLike.noneT 999 0

/-- C3 counterexample: removing observer 2, which is not registered,
from the registered event `"connect"` of `devObs` hits Python's
`list.remove` on a list not containing it, which raises `ValueError`
(modelled by `none`) — refuting the claim that removal of an
unregistered observer never raises. -/
theorem C3_counterexample :
    remove_event_observer devObs "connect" 2 = none := by decide

/-- C3 amended: removing an observer from an event name that is not
registered at all is a no-op returning the device unchanged; but when
the event name is registered and the observer is absent from its list,
the call raises (Python `ValueError` from `list.remove`). -/
theorem C3_remove_event_observer (d : Device) (e : String) (o : Nat) :
    (obsLookup d.observers e = none → remove_event_observer d e o = some d)
    ∧ (∀ l, obsLookup d.observers e = some l → o ∉ l →
        remove_event_observer d e o = none) := by
  constructor
  · intro h
    unfold remove_event_observer
    rw [h]
  · intro l hl ho
    unfold remove_event_observer
    rw [hl]
    show Option.map _ (listRemoveFirst l o) = none
    rw [(listRemoveFirst_eq_none_iff l o).mpr ho]
    rfl

/-- C3 witness: on `devObs`, removing from the unregistered event
`"close"` is a no-op, and removing the absent observer 3 from the
registered event `"connect"` raises. -/
theorem C3_remove_event_observer_witness :
    remove_event_observer devObs "close" 3 = some devObs
    ∧ remove_event_observer devObs "connect" 3 = none :=
  ⟨(C3_remove_event_observer devObs "close" 3).1 (by decide),
   (C3_remove_event_observer devObs "connect" 3).2 [1] (by decide) (by decide)⟩

/-- C8: for every device operating in blocking mode
(`self._looping` set by `connect(blocking=True)`), `loop` raises the
misuse exception immediately: the network tick is never invoked and no
reconnect is triggered, for every tick result and reconnect outcome. -/
theorem C8_loop_raises_in_blocking_mode (d : Device) (h : d.looping = true)
    (loop_rc : Int) (out : ReconnectOutcome) :
    loop d loop_rc out =
      { misuse_raised := true, ticked := false, reconnect_invocations := 0,
        attempts := 0, raised := false } := by
  unfold loop
  rw [h]
  simp

/-- C8 witness: a device connected in blocking mode. -/
theorem C8_loop_raises_in_blocking_mode_witness :
    loop devBlocking 5 ReconnectOutcome.ok =
      { misuse_raised := true, ticked := false, reconnect_invocations := 0,
        attempts := 0, raised := false } :=
  C8_loop_raises_in_blocking_mode devBlocking rfl 5 ReconnectOutcome.ok

/-- C10: on a device holding a client handle, `send_state` with the
integer 0 as `time_like` publishes the current wall-clock milliseconds
(`now_ms`), not 0: the `if not time_like` branch treats every falsy
value (0 as well as the omitted `None`) as omitted. -/
theorem C10_zero_time_is_now (d : Device) (c : MqttClient) (h : d.mqtt_client = some c)
    (state : Json) (now_ms publish_rc : Int) (hnow : now_ms ≠ 0) :
    normalizeTime (TimeLike.int 0) now_ms = now_ms
    ∧ normalizeTime TimeLike.noneT now_ms = now_ms
    ∧ normalizeTime (TimeLike.int 0) now_ms ≠ 0
    ∧ (send_state d state (TimeLike.int 0) now_ms publish_rc).published
        = some (state_topic d,
            json_dumps_sorted (Json.obj [("time", Json.num now_ms), ("data", state)])) := by
  have h0 : normalizeTime (TimeLike.int 0) now_ms = now_ms := by simp [normalizeTime]
  refine ⟨h0, rfl, h0 ▸ hnow, ?_⟩
  rw [send_state_some d c h, h0]

/-- C10 witness: concrete device with wall clock at 999 ms. -/
theorem C10_zero_time_is_now_witness :
    normalizeTime (TimeLike.int 0) 999 = 999
    ∧ normalizeTime TimeLike.noneT 999 = 999
    ∧ normalizeTime (TimeLike.int 0) 999 ≠ 0
    ∧ (send_state devConnected Json.null (TimeLike.int 0) 999 0).published
        = some (state_topic devConnected,
            json_dumps_sorted (Json.obj [("time", Json.num 999), ("data", Json.null)])) :=
  C10_zero_time_is_now devConnected { state := mqtt_cs_connected } rfl
    Json.null 999 0 (by decide)

/-- C5: on a connect result, response code 0 makes the client
subscribe to the command topic and fire `"connect"` on the first-ever
success (clearing the flag) or `"reconnect"` on later successes; a
code in the fixed set (1, 2, 4, 5) raises the unrecoverable
invalid-credentials error; any other non-zero code does not raise and
invokes the reconnect routine exactly once. -/
theorem C5_connect_result (d : Device) (rc : Int) (out : ReconnectOutcome) :
    (rc = 0 → d.initial_connect = true →
      cb_client_connect d rc out =
        { subscribed := [command_topic d], fired := ["connect"],
          invalid_creds_raised := false, reconnect_invocations := 0, attempts := 0,
          raised := false, dev := { d with initial_connect := false } })
    ∧ (rc = 0 → d.initial_connect = false →
      cb_client_connect d rc out =
        { subscribed := [command_topic d], fired := ["reconnect"],
          invalid_creds_raised := false, reconnect_invocations := 0, attempts := 0,
          raised := false, dev := d })
    ∧ ((rc = 1 ∨ rc = 2 ∨ rc = 4 ∨ rc = 5) →
      cb_client_connect d rc out =
        { subscribed := [], fired := [], invalid_creds_raised := true,
          reconnect_invocations := 0, attempts := 0, raised := false, dev := d })
    ∧ (rc ≠ 0 → ¬(rc = 1 ∨ rc = 2 ∨ rc = 4 ∨ rc = 5) →
      (cb_client_connect d rc out).invalid_creds_raised = false
      ∧ (cb_client_connect d rc out).reconnect_invocations = 1) := by
  refine ⟨?_, ?_, ?_, ?_⟩
  · intro h0 hi
    simp [cb_client_connect, h0, hi]
  · intro h0 hi
    simp [cb_client_connect, h0, hi]
  · intro h
    have hne : ¬rc = 0 := by rcases h with rfl | rfl | rfl | rfl <;> norm_num
    unfold cb_client_connect
    rw [if_neg hne, if_pos h]
  · intro h1 h2
    unfold cb_client_connect
    rw [if_neg h1, if_neg h2]
    exact ⟨rfl, rfl⟩

/-- C5 witness: first success fires `"connect"`, later success fires
`"reconnect"`, code 5 raises, code 3 triggers one reconnect
invocation without raising the credentials error. -/
theorem C5_connect_result_witness :
    cb_client_connect devFirstConnect 0 ReconnectOutcome.ok =
      { subscribed := [command_topic devFirstConnect], fired := ["connect"],
        invalid_creds_raised := false, reconnect_invocations := 0, attempts := 0,
        raised := false, dev := { devFirstConnect with initial_connect := false } }
    ∧ cb_client_connect devConnected 0 ReconnectOutcome.ok =
      { subscribed := [command_topic devConnected], fired := ["reconnect"],
        invalid_creds_raised := false, reconnect_invocations := 0, attempts := 0,
        raised := false, dev := devConnected }
    ∧ cb_client_connect devConnected 5 ReconnectOutcome.ok =
      { subscribed := [], fired := [], invalid_creds_raised := true,
        reconnect_invocations := 0, attempts := 0, raised := false, dev := devConnected }
    ∧ ((cb_client_connect devConnected 3 ReconnectOutcome.ok).invalid_creds_raised = false
      ∧ (cb_client_connect devConnected 3 ReconnectOutcome.ok).reconnect_invocations = 1) :=
  ⟨(C5_connect_result devFirstConnect 0 ReconnectOutcome.ok).1 rfl rfl,
   (C5_connect_result devConnected 0 ReconnectOutcome.ok).2.1 rfl rfl,
   (C5_connect_result devConnected 5 ReconnectOutcome.ok).2.2.1 (by decide),
   (C5_connect_result devConnected 3 ReconnectOutcome.ok).2.2.2 (by decide) (by decide)⟩

/-- C6 counterexample: on a non-blocking device, an exception of a
type other than `socket.error` raised by the underlying `reconnect()`
propagates out of `_wrapped_reconnect` (the `except socket.error`
clause does not catch it) — refuting the claim that any error raised
during the reconnect attempt is swallowed. -/
theorem C6_counterexample :
    devHalfOpen.looping = false
    ∧ (wrapped_reconnect devHalfOpen ReconnectOutcome.otherError).attempts = 1
    ∧ (wrapped_reconnect devHalfOpen ReconnectOutcome.otherError).raised = true := by
  decide

/-- C6 amended: each failure (non-zero connect result outside the
fatal set, abnormal disconnect with a client handle, non-success
network tick in non-blocking mode) invokes the reconnect routine
exactly once; the underlying `reconnect()` call is suppressed in
blocking mode; a `socket.error` raised during the attempt is logged
and swallowed, while an exception of any other type propagates. -/
theorem C6_reconnect_policy (d : Device) (rc loop_rc : Int) (out : ReconnectOutcome) :
    ((wrapped_reconnect d out).attempts = if d.looping then 0 else 1)
    ∧ ((wrapped_reconnect d out).raised = true ↔
        (d.looping = false ∧ out = ReconnectOutcome.otherError))
    ∧ (rc ≠ 0 → ¬(rc = 1 ∨ rc = 2 ∨ rc = 4 ∨ rc = 5) →
        (cb_client_connect d rc out).reconnect_invocations = 1
        ∧ (cb_client_connect d rc out).attempts = (wrapped_reconnect d out).attempts
        ∧ (cb_client_connect d rc out).raised = (wrapped_reconnect d out).raised)
    ∧ (∀ c, d.mqtt_client = some c → rc ≠ MQTT_ERR_SUCCESS →
        (cb_client_disconnect d rc out).reconnect_invocations = 1
        ∧ (cb_client_disconnect d rc out).attempts = (wrapped_reconnect d out).attempts
        ∧ (cb_client_disconnect d rc out).raised = (wrapped_reconnect d out).raised)
    ∧ (d.looping = false → ∀ c, d.mqtt_client = some c → loop_rc ≠ MQTT_ERR_SUCCESS →
        (loop d loop_rc out).reconnect_invocations = 1
        ∧ (loop d loop_rc out).attempts = (wrapped_reconnect d out).attempts
        ∧ (loop d loop_rc out).raised = (wrapped_reconnect d out).raised) := by
  refine ⟨?_, ?_, ?_, ?_, ?_⟩
  · by_cases hb : d.looping <;> cases out <;> simp [wrapped_reconnect, hb]
  · by_cases hb : d.looping <;> cases out <;> simp [wrapped_reconnect, hb]
  · intro h1 h2
    unfold cb_client_connect
    rw [if_neg h1, if_neg h2]
    exact ⟨rfl, rfl, rfl⟩
  · intro c hc hrc
    unfold cb_client_disconnect
    rw [hc, if_neg hrc]
    exact ⟨rfl, rfl, rfl⟩
  · intro hb c hc hrc
    unfold loop
    rw [hb, hc, if_neg hrc]
    simp

/-- C6 witness: concrete non-blocking device, connect code 3,
tick code 2, reconnect raising a `socket.error` (swallowed). -/
theorem C6_reconnect_policy_witness :
    ((wrapped_reconnect devHalfOpen ReconnectOutcome.socketError).attempts
        = if devHalfOpen.looping then 0 else 1)
    ∧ ((wrapped_reconnect devHalfOpen ReconnectOutcome.socketError).raised = true ↔
        (devHalfOpen.looping = false
          ∧ ReconnectOutcome.socketError = ReconnectOutcome.otherError))
    ∧ ((cb_client_connect devHalfOpen 3 ReconnectOutcome.socketError).reconnect_invocations = 1
      ∧ (cb_client_connect devHalfOpen 3 ReconnectOutcome.socketError).attempts
          = (wrapped_reconnect devHalfOpen ReconnectOutcome.socketError).attempts
      ∧ (cb_client_connect devHalfOpen 3 ReconnectOutcome.socketError).raised
          = (wrapped_reconnect devHalfOpen ReconnectOutcome.socketError).raised)
    ∧ ((cb_client_disconnect devHalfOpen 3 ReconnectOutcome.socketError).reconnect_invocations = 1
      ∧ (cb_client_disconnect devHalfOpen 3 ReconnectOutcome.socketError).attempts
          = (wrapped_reconnect devHalfOpen ReconnectOutcome.socketError).attempts
      ∧ (cb_client_disconnect devHalfOpen 3 ReconnectOutcome.socketError).raised
          = (wrapped_reconnect devHalfOpen ReconnectOutcome.socketError).raised)
    ∧ ((loop devHalfOpen 2 ReconnectOutcome.socketError).reconnect_invocations = 1
      ∧ (loop devHalfOpen 2 ReconnectOutcome.socketError).attempts
          = (wrapped_reconnect devHalfOpen ReconnectOutcome.socketError).attempts
      ∧ (loop devHalfOpen 2 ReconnectOutcome.socketError).raised
          = (wrapped_reconnect devHalfOpen ReconnectOutcome.socketError).raised) := by
  have h := C6_reconnect_policy devHalfOpen 3 2 ReconnectOutcome.socketError
  exact ⟨h.1, h.2.1, h.2.2.1 (by decide) (by decide),
    h.2.2.2.1 { state := mqtt_cs_new } rfl (by decide),
    h.2.2.2.2 rfl { state := mqtt_cs_new } rfl (by decide)⟩

/-- C4 counterexample: a malformed (non-JSON, non-empty) payload makes
`json.loads` raise and the exception escapes `_cb_client_command` —
refuting the claim that malformed payloads are silently ignored. -/
theorem C4_counterexample :
    (cb_client_command devConnected (some "not json")).raised = true
    ∧ (cb_client_command devConnected (some "not json")).fired = none :=
  ⟨rfl, rfl⟩

/-- C4 amended: an absent or empty payload is silently ignored (no
event, no exception); a payload the JSON decoder accepts fires the
`"command"` event with the decoded object; a non-empty payload the
decoder rejects makes the raised parse error escape the callback
(there is no `try/except` around `json.loads`). -/
theorem C4_command_message (d : Device) (s : String) (hs : s ≠ "") :
    cb_client_command d none = { fired := none, raised := false }
    ∧ cb_client_command d (some "") = { fired := none, raised := false }
    ∧ (∀ v, json_loads_ext s = some v →
        cb_client_command d (some s) = { fired := some v, raised := false })
    ∧ (json_loads_ext s = none →
        cb_client_command d (some s) = { fired := none, raised := true }) := by
  have hsome : cb_client_command d (some s) =
      if s = "" then { fired := none, raised := false }
      else
        match json_loads_ext s with
        | none => { fired := none, raised := true }
        | some v => { fired := some v, raised := false } := rfl
  refine ⟨rfl, rfl, ?_, ?_⟩
  · intro v hv
    rw [hsome, if_neg hs, hv]
  · intro hv
    rw [hsome, if_neg hs, hv]

/-- C4 witness: the repository's own test command payload decodes and
fires `"command"` with the decoded object (including the `$date`
marker turned into the UTC instant 2016-06-01T01:09:51.145 =
1464743391145000 µs), while the malformed payload of the
counterexample raises. -/
theorem C4_command_message_witness :
    cb_client_command devConnected
        (some "\x7b\"name\":\"start\",\"payload\":\x7b\"one\":[2,3]\x7d,\"time\":\x7b\"$date\":\"2016-06-01T01:09:51.145Z\"\x7d\x7d")
      = { fired := some (PyVal.dict
            [("name", PyVal.str "start"),
             ("payload", PyVal.dict [("one", PyVal.list [PyVal.int 2, PyVal.int 3])]),
             ("time", PyVal.datetime 1464743391145000)]),
          raised := false }
    ∧ cb_client_command devConnected (some "\x7bbad") = { fired := none, raised := true } :=
  ⟨(C4_command_message devConnected
      "\x7b\"name\":\"start\",\"payload\":\x7b\"one\":[2,3]\x7d,\"time\":\x7b\"$date\":\"2016-06-01T01:09:51.145Z\"\x7d\x7d"
      (by decide)).2.2.1 _ rfl,
   (C4_command_message devConnected "\x7bbad" (by decide)).2.2.2 rfl⟩

/-! ### C7: lemma stack for the `$date` offset forms -/

/-- `strptime` on a canonically rendered wall-clock string. -/
theorem strptime_mkWall (y mo dd hh mi ss : Nat) (fs : List Char)
    (hy1 : 1 ≤ y) (hy2 : y ≤ 9999) (hmo1 : 1 ≤ mo) (hmo2 : mo ≤ 12)
    (hdd1 : 1 ≤ dd) (hdd2 : dd ≤ daysInMonth y mo)
    (hhh : hh ≤ 23) (hmi : mi ≤ 59) (hss : ss ≤ 59)
    (hfs0 : fs ≠ []) (hfs6 : fs.length ≤ 6) (hfsd : fs.all isDig = true) :
    strptime_iso (mkWall y mo dd hh mi ss fs) = some (wallInstant y mo dd hh mi ss fs) := by
  simp only [mkWall, List.cons_append, List.nil_append]
  simp only [strptime_iso]
  rw [if_pos ?hc]
  case hc =>
    refine ⟨by simp [isDig_digitOf], hfs0, hfs6, hfsd⟩
  rw [digitsToNat_four y hy2, digitsToNat_two mo (by omega), digitsToNat_two dd ?hdle,
    digitsToNat_two hh (by omega), digitsToNat_two mi (by omega), digitsToNat_two ss (by omega)]
  case hdle =>
    have : daysInMonth y mo ≤ 31 := by
      unfold daysInMonth
      split <;> try split <;> omega
    omega
  rw [if_pos ⟨hy1, hmo1, hmo2, hdd1, hdd2, hhh, hmi, hss⟩]
  rfl

/-- Python `x[-k]` only looks at the right end. -/
theorem pyNeg_append (w o : List Char) (k : Nat) (h1 : 1 ≤ k) (h2 : k ≤ o.length) :
    pyNeg (w ++ o) k = pyNeg o k := by
  unfold pyNeg
  rw [List.reverse_append]
  rw [List.getElem?_append_left (by rw [List.length_reverse]; omega)]

/-- Python `x[-k:]` recovers the appended suffix. -/
theorem pyLastN_append (w o : List Char) (k : Nat) (h : o.length = k) :
    pyLastN (w ++ o) k = o := by
  unfold pyLastN
  rw [List.length_append, h, Nat.add_sub_cancel]
  exact List.drop_left w o

/-- Python `x[:-k]` recovers the stem. -/
theorem pyDropLastN_append (w o : List Char) (k : Nat) (h : o.length = k) :
    pyDropLastN (w ++ o) k = w := by
  unfold pyDropLastN
  rw [List.length_append, h, Nat.add_sub_cancel]
  exact List.take_left w o

/-- Digit characters are not `'+'`. -/
theorem digitOf_ne_plus (n : Nat) : digitOf n ≠ '+' := digitOf_ne n '+' (by decide)

/-- Digit characters are not `'-'`. -/
theorem digitOf_ne_minus (n : Nat) : digitOf n ≠ '-' := digitOf_ne n '-' (by decide)

/-- Digit characters are not `':'`. -/
theorem digitOf_ne_colon (n : Nat) : digitOf n ≠ ':' := digitOf_ne n ':' (by decide)

/-- Digit characters are not `'Z'`. -/
theorem digitOf_ne_Z (n : Nat) : digitOf n ≠ 'Z' := digitOf_ne n 'Z' (by decide)

/-- `int()` on a two-digit rendering. -/
theorem pyInt_two (x : Nat) (h : x ≤ 99) :
    pyInt [digitOf (x / 10), digitOf x] = some (x : Int) := by
  simp only [pyInt]
  rw [if_neg (digitOf_ne_plus (x / 10)), if_neg (digitOf_ne_minus (x / 10))]
  rw [if_pos (by simp [isDig_digitOf])]
  rw [digitsToNat_two x h]

/-- `split(":")` on a rendered `HH:MM` body. -/
theorem pySplitColon_pair (a b c d : Nat) :
    pySplitColon [digitOf a, digitOf b, ':', digitOf c, digitOf d]
      = [[digitOf a, digitOf b], [digitOf c, digitOf d]] := by
  simp [pySplitColon, digitOf_ne_colon]

/-- A digit character is neither sign character. -/
theorem isDig_not_sign (c : Char) (h : isDig c = true) : ¬(c = '+' ∨ c = '-') := by
  rintro (rfl | rfl) <;> simp [isDig] at h

/-- Offset dispatch: trailing `Z`. -/
theorem splitOffset_Z (w : List Char) :
    splitOffset (w ++ ['Z']) = some (w, ['Z']) := by
  have h1 : pyNeg (w ++ ['Z']) 1 = some 'Z' := by
    rw [pyNeg_append _ _ 1 (by norm_num) (by simp)]
    rfl
  simp only [splitOffset, h1]
  rw [if_pos trivial, pyDropLastN_append w ['Z'] 1 rfl]

/-- Offset dispatch: trailing `(+|-)HH:MM` (any sign character: the
source only looks for the colon at `dtm[-3]`). -/
theorem splitOffset_colon (w : List Char) (sgn : Char) (oh om : Nat) :
    splitOffset (w ++ offColon sgn oh om) = some (w, offColon sgn oh om) := by
  have h1 : pyNeg (w ++ offColon sgn oh om) 1 = some (digitOf om) := by
    rw [pyNeg_append _ _ 1 (by norm_num) (by simp [offColon])]
    rfl
  have h3 : pyNeg (w ++ offColon sgn oh om) 3 = some ':' := by
    rw [pyNeg_append _ _ 3 (by norm_num) (by simp [offColon])]
    rfl
  simp only [splitOffset, h1, h3]
  rw [if_neg (digitOf_ne_Z om), if_pos trivial,
    pyDropLastN_append w (offColon sgn oh om) 6 rfl,
    pyLastN_append w (offColon sgn oh om) 6 rfl]

/-- Offset dispatch: trailing `(+|-)HHMM` (`dtm[-5]` is the sign). -/
theorem splitOffset_hhmm (w : List Char) (sgn : Char) (oh om : Nat)
    (hsgn : sgn = '+' ∨ sgn = '-') :
    splitOffset (w ++ offHHMM sgn oh om) = some (w, offHHMM sgn oh om) := by
  have h1 : pyNeg (w ++ offHHMM sgn oh om) 1 = some (digitOf om) := by
    rw [pyNeg_append _ _ 1 (by norm_num) (by simp [offHHMM])]
    rfl
  have h3 : pyNeg (w ++ offHHMM sgn oh om) 3 = some (digitOf oh) := by
    rw [pyNeg_append _ _ 3 (by norm_num) (by simp [offHHMM])]
    rfl
  have h5 : pyNeg (w ++ offHHMM sgn oh om) 5 = some sgn := by
    rw [pyNeg_append _ _ 5 (by norm_num) (by simp [offHHMM])]
    rfl
  simp only [splitOffset, h1, h3, h5]
  rw [if_neg (digitOf_ne_Z om), if_neg (digitOf_ne_colon oh), if_pos hsgn,
    pyDropLastN_append w (offHHMM sgn oh om) 5 rfl,
    pyLastN_append w (offHHMM sgn oh om) 5 rfl]

/-- Offset dispatch: trailing `(+|-)HH` (`dtm[-3]` is the sign, and
the caller must show `dtm[-5]`, which sits inside the wall-clock
part, is not a sign character). -/
theorem splitOffset_hh (w : List Char) (sgn : Char) (oh : Nat)
    (hsgn : sgn = '+' ∨ sgn = '-')
    (hc5 : ∃ c, pyNeg (w ++ offHH sgn oh) 5 = some c ∧ ¬(c = '+' ∨ c = '-')) :
    splitOffset (w ++ offHH sgn oh) = some (w, offHH sgn oh) := by
  obtain ⟨c5, h5, h5ne⟩ := hc5
  have h1 : pyNeg (w ++ offHH sgn oh) 1 = some (digitOf oh) := by
    rw [pyNeg_append _ _ 1 (by norm_num) (by simp [offHH])]
    rfl
  have h3 : pyNeg (w ++ offHH sgn oh) 3 = some sgn := by
    rw [pyNeg_append _ _ 3 (by norm_num) (by simp [offHH])]
    rfl
  have hsc : sgn ≠ ':' := by rcases hsgn with rfl | rfl <;> decide
  simp only [splitOffset, h1, h3, h5]
  rw [if_neg (digitOf_ne_Z oh), if_neg hsc, if_neg h5ne, if_pos hsgn,
    pyDropLastN_append w (offHH sgn oh) 3 rfl,
    pyLastN_append w (offHH sgn oh) 3 rfl]

/-- `x[-k]` by position from the front. -/
theorem pyNeg_eq (l : List Char) (k : Nat) (h1 : 1 ≤ k) (h2 : k ≤ l.length) :
    pyNeg l k = l[l.length - k]? := by
  unfold pyNeg
  rw [List.getElem?_reverse (by omega)]
  congr 1
  omega

/-- For a wall-clock string followed by a `(+|-)HH` offset, the
character at `dtm[-5]` is a fraction digit (two or more fraction
digits) or the `'.'` (one fraction digit) — never a sign. -/
theorem pyNeg5_mkWall_offHH (y mo dd hh mi ss : Nat) (fs : List Char) (sgn : Char) (oh : Nat)
    (hfs0 : fs ≠ []) (hfsd : fs.all isDig = true) :
    ∃ c, pyNeg (mkWall y mo dd hh mi ss fs ++ offHH sgn oh) 5 = some c
      ∧ ¬(c = '+' ∨ c = '-') := by
  have hL : (mkWall y mo dd hh mi ss fs ++ offHH sgn oh).length = fs.length + 23 := by
    simp [mkWall, offHH]
  have h := pyNeg_eq (mkWall y mo dd hh mi ss fs ++ offHH sgn oh) 5 (by norm_num)
    (by rw [hL]; omega)
  rw [hL, show fs.length + 23 - 5 = fs.length + 18 from by omega] at h
  rw [mkWall, List.append_assoc] at h
  cases fs with
  | nil => exact absurd rfl hfs0
  | cons c0 t =>
    cases t with
    | nil =>
      rw [show [c0].length + 18 = 19 from rfl] at h
      rw [List.getElem?_append_left (by norm_num)] at h
      refine ⟨'.', ?_, by decide⟩
      rw [mkWall, List.append_assoc, h]
      rfl
    | cons c1 t2 =>
      rw [List.getElem?_append_right (by simp; try omega)] at h
      rw [show (c0 :: c1 :: t2).length + 18 -
          [digitOf (y / 1000), digitOf (y / 100), digitOf (y / 10), digitOf y, '-',
           digitOf (mo / 10), digitOf mo, '-', digitOf (dd / 10), digitOf dd, 'T',
           digitOf (hh / 10), digitOf hh, ':', digitOf (mi / 10), digitOf mi, ':',
           digitOf (ss / 10), digitOf ss, '.'].length = t2.length from by simp; try omega] at h
      rw [List.getElem?_append_left (by simp; try omega)] at h
      have hlt : t2.length < (c0 :: c1 :: t2).length := by simp; try omega
      rw [List.getElem?_eq_getElem hlt] at h
      refine ⟨(c0 :: c1 :: t2)[t2.length], ?_, ?_⟩
      · rw [mkWall, List.append_assoc, h]
      apply isDig_not_sign
      exact (List.all_eq_true.mp hfsd) _ (List.getElem_mem hlt)

/-- Offset seconds of a rendered `(+|-)HH:MM`. -/
theorem offsetSecs_colon (sgn : Char) (oh om : Nat) (hoh : oh ≤ 99) (hom : om ≤ 99) :
    offsetSecs (offColon sgn oh om) = some ((oh : Int) * 3600 + (om : Int) * 60) := by
  simp only [offsetSecs]
  rw [if_pos (show (offColon sgn oh om).length = 6 from rfl)]
  rw [show (offColon sgn oh om).drop 1
      = [digitOf (oh / 10), digitOf oh, ':', digitOf (om / 10), digitOf om] from rfl]
  rw [pySplitColon_pair]
  simp only [pyInt_two oh hoh, pyInt_two om hom]

/-- Offset seconds of a rendered `(+|-)HHMM`. -/
theorem offsetSecs_hhmm (sgn : Char) (oh om : Nat) (hoh : oh ≤ 99) (hom : om ≤ 99) :
    offsetSecs (offHHMM sgn oh om) = some ((oh : Int) * 3600 + (om : Int) * 60) := by
  simp only [offsetSecs]
  rw [if_neg (show ¬(offHHMM sgn oh om).length = 6 from by simp [offHHMM])]
  rw [if_pos (show (offHHMM sgn oh om).length = 5 from rfl)]
  rw [show ((offHHMM sgn oh om).drop 1).take 2 = [digitOf (oh / 10), digitOf oh] from rfl]
  rw [show (offHHMM sgn oh om).drop 3 = [digitOf (om / 10), digitOf om] from rfl]
  simp only [pyInt_two oh hoh, pyInt_two om hom]

/-- Offset seconds of a rendered `(+|-)HH`. -/
theorem offsetSecs_hh (sgn : Char) (oh : Nat) (hoh : oh ≤ 99) :
    offsetSecs (offHH sgn oh) = some ((oh : Int) * 3600) := by
  simp only [offsetSecs]
  rw [if_neg (show ¬(offHH sgn oh).length = 6 from by simp [offHH])]
  rw [if_neg (show ¬(offHH sgn oh).length = 5 from by simp [offHH])]
  rw [if_pos (show (offHH sgn oh).length = 3 from rfl)]
  rw [show ((offHH sgn oh).drop 1).take 2 = [digitOf (oh / 10), digitOf oh] from rfl]
  simp only [pyInt_two oh hoh]

/-- Assembling `parse_ext_date` for a non-empty, non-`Z` offset. -/
theorem parse_ext_date_eq (dtm w off : List Char) (inst secs : Int)
    (hsplit : splitOffset dtm = some (w, off))
    (hw : strptime_iso w = some inst)
    (hne : ¬(off = [] ∨ off = ['Z']))
    (hsecs : offsetSecs off = some secs) :
    parse_ext_date dtm
      = some (inst - (if off[0]? = some '-' then -secs else secs) * 1000000) := by
  simp only [parse_ext_date, hsplit, hw, hsecs, if_neg hne]

/-- Assembling `parse_ext_date` for a `Z` offset. -/
theorem parse_ext_date_z (dtm w : List Char) (inst : Int)
    (hsplit : splitOffset dtm = some (w, ['Z']))
    (hw : strptime_iso w = some inst) :
    parse_ext_date dtm = some inst := by
  simp only [parse_ext_date, hsplit, hw]
  simp

/-- C7: for every canonical wall-clock string and every offset in each
of the supported forms (`Z`, `+HH:MM`, `+HHMM`, `+HH` and the negative
forms), the decoder yields a UTC instant at microsecond precision
equal to the wall-clock instant minus the offset.  In particular two
offset representations denoting the same instant (e.g. `+HH:MM` and
`+HHMM` with the same digits, or any wall-clock/offset pairs with
equal wall-instant minus offset) decode to equal UTC instants. -/
theorem C7_date_offsets (y mo dd hh mi ss oh om : Nat) (fs : List Char)
    (hy1 : 1 ≤ y) (hy2 : y ≤ 9999) (hmo1 : 1 ≤ mo) (hmo2 : mo ≤ 12)
    (hdd1 : 1 ≤ dd) (hdd2 : dd ≤ daysInMonth y mo)
    (hhh : hh ≤ 23) (hmi : mi ≤ 59) (hss : ss ≤ 59)
    (hfs0 : fs ≠ []) (hfs6 : fs.length ≤ 6) (hfsd : fs.all isDig = true)
    (hoh : oh ≤ 99) (hom : om ≤ 99) :
    parse_ext_date (mkWall y mo dd hh mi ss fs ++ ['Z'])
      = some (wallInstant y mo dd hh mi ss fs)
    ∧ parse_ext_date (mkWall y mo dd hh mi ss fs ++ offColon '+' oh om)
      = some (wallInstant y mo dd hh mi ss fs - ((oh * 3600 + om * 60 : Nat) : Int) * 1000000)
    ∧ parse_ext_date (mkWall y mo dd hh mi ss fs ++ offHHMM '+' oh om)
      = some (wallInstant y mo dd hh mi ss fs - ((oh * 3600 + om * 60 : Nat) : Int) * 1000000)
    ∧ parse_ext_date (mkWall y mo dd hh mi ss fs ++ offHH '+' oh)
      = some (wallInstant y mo dd hh mi ss fs - ((oh * 3600 : Nat) : Int) * 1000000)
    ∧ parse_ext_date (mkWall y mo dd hh mi ss fs ++ offColon '-' oh om)
      = some (wallInstant y mo dd hh mi ss fs + ((oh * 3600 + om * 60 : Nat) : Int) * 1000000)
    ∧ parse_ext_date (mkWall y mo dd hh mi ss fs ++ offHHMM '-' oh om)
      = some (wallInstant y mo dd hh mi ss fs + ((oh * 3600 + om * 60 : Nat) : Int) * 1000000)
    ∧ parse_ext_date (mkWall y mo dd hh mi ss fs ++ offHH '-' oh)
      = some (wallInstant y mo dd hh mi ss fs + ((oh * 3600 : Nat) : Int) * 1000000) := by
  have hw := strptime_mkWall y mo dd hh mi ss fs hy1 hy2 hmo1 hmo2 hdd1 hdd2 hhh hmi hss
    hfs0 hfs6 hfsd
  refine ⟨?_, ?_, ?_, ?_, ?_, ?_, ?_⟩
  · exact parse_ext_date_z _ _ _ (splitOffset_Z _) hw
  · rw [parse_ext_date_eq _ _ _ _ _ (splitOffset_colon _ '+' oh om) hw
      (by simp [offColon]) (offsetSecs_colon '+' oh om hoh hom)]
    rw [show (offColon '+' oh om)[0]? = some '+' from rfl, if_neg (by decide)]
    try (simp only [Option.some.injEq]; push_cast; ring)
  · rw [parse_ext_date_eq _ _ _ _ _ (splitOffset_hhmm _ '+' oh om (Or.inl rfl)) hw
      (by simp [offHHMM]) (offsetSecs_hhmm '+' oh om hoh hom)]
    rw [show (offHHMM '+' oh om)[0]? = some '+' from rfl, if_neg (by decide)]
    try (simp only [Option.some.injEq]; push_cast; ring)
  · obtain ⟨c5, h5, h5ne⟩ := pyNeg5_mkWall_offHH y mo dd hh mi ss fs '+' oh hfs0 hfsd
    rw [parse_ext_date_eq _ _ _ _ _ (splitOffset_hh _ '+' oh (Or.inl rfl) ⟨c5, h5, h5ne⟩) hw
      (by simp [offHH]) (offsetSecs_hh '+' oh hoh)]
    rw [show (offHH '+' oh)[0]? = some '+' from rfl, if_neg (by decide)]
    try (simp only [Option.some.injEq]; push_cast; ring)
  · rw [parse_ext_date_eq _ _ _ _ _ (splitOffset_colon _ '-' oh om) hw
      (by simp [offColon]) (offsetSecs_colon '-' oh om hoh hom)]
    rw [show (offColon '-' oh om)[0]? = some '-' from rfl, if_pos rfl]
    try (simp only [Option.some.injEq]; push_cast; ring)
  · rw [parse_ext_date_eq _ _ _ _ _ (splitOffset_hhmm _ '-' oh om (Or.inr rfl)) hw
      (by simp [offHHMM]) (offsetSecs_hhmm '-' oh om hoh hom)]
    rw [show (offHHMM '-' oh om)[0]? = some '-' from rfl, if_pos rfl]
    try (simp only [Option.some.injEq]; push_cast; ring)
  · obtain ⟨c5, h5, h5ne⟩ := pyNeg5_mkWall_offHH y mo dd hh mi ss fs '-' oh hfs0 hfsd
    rw [parse_ext_date_eq _ _ _ _ _ (splitOffset_hh _ '-' oh (Or.inr rfl) ⟨c5, h5, h5ne⟩) hw
      (by simp [offHH]) (offsetSecs_hh '-' oh hoh)]
    rw [show (offHH '-' oh)[0]? = some '-' from rfl, if_pos rfl]
    try (simp only [Option.some.injEq]; push_cast; ring)

/-- C7 witness: the spec's example instant 2016-06-01T01:09:51.145Z
written with wall clock 06:39:51.145 and offset `+05:30`, in both the
colon and the compact form, plus the `Z` form of the same instant. -/
theorem C7_date_offsets_witness :
    parse_ext_date (mkWall 2016 6 1 6 39 51 ['1', '4', '5'] ++ offColon '+' 5 30)
      = some (wallInstant 2016 6 1 6 39 51 ['1', '4', '5']
          - ((5 * 3600 + 30 * 60 : Nat) : Int) * 1000000)
    ∧ parse_ext_date (mkWall 2016 6 1 6 39 51 ['1', '4', '5'] ++ offHHMM '+' 5 30)
      = some (wallInstant 2016 6 1 6 39 51 ['1', '4', '5']
          - ((5 * 3600 + 30 * 60 : Nat) : Int) * 1000000)
    ∧ parse_ext_date (mkWall 2016 6 1 1 9 51 ['1', '4', '5'] ++ ['Z'])
      = some (wallInstant 2016 6 1 1 9 51 ['1', '4', '5']) := by
  have h := C7_date_offsets 2016 6 1 6 39 51 5 30 ['1', '4', '5']
    (by decide) (by decide) (by decide) (by decide) (by decide) (by decide)
    (by decide) (by decide) (by decide) (by decide) (by decide) (by decide)
    (by decide) (by decide)
  have h2 := C7_date_offsets 2016 6 1 1 9 51 5 30 ['1', '4', '5']
    (by decide) (by decide) (by decide) (by decide) (by decide) (by decide)
    (by decide) (by decide) (by decide) (by decide) (by decide) (by decide)
    (by decide) (by decide)
  exact ⟨h.2.1, h.2.2.1, h2.1⟩

end Losant
